import Mathlib

/-!
# Writer configuration of the agent (`internal/core/config/writer.go`)

A shallow embedding of `WriterConfig` and its methods, followed by the
properties of the writer specification that are decided by this code.

Conventions of the embedding
* Go `int` and `time.Duration` are `Int`, Go `uint` is `Nat`.  No method of
  `WriterConfig` does arithmetic on them, they are only compared with `0` and
  copied, so the machine width plays no role.
* `*bool` is `Option Bool`, `map[string]string` is an association list.
* A Go function returning `(*T, error)` is a function into `Except`, a Go
  `panic` is `Except.error` carrying the panic message, and a returned
  pointer that may be `nil` is an `Option`.
* `MetricFilter` and `PropertyFilterConfig` are declared in other files of the
  package; `url.URL`, `url.Parse` and `hashstructure.Hash` belong to libraries.
  They are parameters of the embedding.
-/

namespace config

/-- WriterConfig holds configuration for the datapoint writer. -/
structure WriterConfig (MetricFilter PropertyFilterConfig : Type) where
  DatapointMaxBatchSize : Int
  MaxDatapointsBuffered : Int
  TraceSpanMaxBatchSize : Int
  TraceExportFormat : String
  DatapointMaxRequests : Int
  MaxRequests : Int
  EventSendIntervalSeconds : Int
  PropertiesMaxRequests : Nat
  PropertiesMaxBuffered : Nat
  PropertiesSendDelaySeconds : Nat
  PropertiesHistorySize : Nat
  LogDatapoints : Bool
  LogEvents : Bool
  LogTraceSpans : Bool
  LogDimensionUpdates : Bool
  LogDroppedDatapoints : Bool
  SendTraceHostCorrelationMetrics : Option Bool
  StaleServiceTimeout : Int
  TraceHostCorrelationMetricsInterval : Int
  MaxTraceSpansInFlight : Nat
  HostIDDims : List (String × String)
  IngestURL : String
  APIURL : String
  TraceEndpointURL : String
  SignalFxAccessToken : String
  GlobalDimensions : List (String × String)
  MetricsToInclude : List MetricFilter
  MetricsToExclude : List MetricFilter
  PropertiesToExclude : List PropertyFilterConfig
deriving DecidableEq

variable {MetricFilter PropertyFilterConfig URL GoError : Type}

/-- The configuration given by the `default:"..."` tags of the struct, every
untagged field at its Go zero value.  Durations are in nanoseconds. -/
def defaultWriterConfig : WriterConfig MetricFilter PropertyFilterConfig where
  DatapointMaxBatchSize := 1000
  MaxDatapointsBuffered := 25000
  TraceSpanMaxBatchSize := 1000
  TraceExportFormat := "sfx"
  DatapointMaxRequests := 0
  MaxRequests := 10
  EventSendIntervalSeconds := 1
  PropertiesMaxRequests := 20
  PropertiesMaxBuffered := 10000
  PropertiesSendDelaySeconds := 30
  PropertiesHistorySize := 10000
  LogDatapoints := false
  LogEvents := false
  LogTraceSpans := false
  LogDimensionUpdates := false
  LogDroppedDatapoints := false
  SendTraceHostCorrelationMetrics := some true
  StaleServiceTimeout := 300000000000
  TraceHostCorrelationMetricsInterval := 60000000000
  MaxTraceSpansInFlight := 100000
  HostIDDims := []
  IngestURL := ""
  APIURL := ""
  TraceEndpointURL := ""
  SignalFxAccessToken := ""
  GlobalDimensions := []
  MetricsToInclude := []
  MetricsToExclude := []
  PropertiesToExclude := []

/-- The method `initialize` of `WriterConfig`: the receiver is updated in place,
here the updated struct is returned. -/
def WriterConfig.initialize (wc : WriterConfig MetricFilter PropertyFilterConfig) :
    WriterConfig MetricFilter PropertyFilterConfig :=
  if wc.DatapointMaxRequests ≠ 0 then
    { wc with MaxRequests := wc.DatapointMaxRequests }
  else
    { wc with DatapointMaxRequests := wc.MaxRequests }

/-- ParsedIngestURL parses and returns the ingest URL.  `parse` is `url.Parse`. -/
def WriterConfig.ParsedIngestURL (parse : String → Except GoError URL)
    (wc : WriterConfig MetricFilter PropertyFilterConfig) : Except String (Option URL) :=
  match parse wc.IngestURL with
  | .error _ => .error "IngestURL was supposed to be validated already"
  | .ok ingestURL => .ok (some ingestURL)

/-- ParsedAPIURL parses and returns the API server URL.  `parse` is `url.Parse`. -/
def WriterConfig.ParsedAPIURL (parse : String → Except GoError URL)
    (wc : WriterConfig MetricFilter PropertyFilterConfig) : Except String (Option URL) :=
  match parse wc.APIURL with
  | .error _ => .error "apiUrl was supposed to be validated already"
  | .ok apiURL => .ok (some apiURL)

/-- ParsedTraceEndpointURL parses and returns the trace endpoint server URL.
`parse` is `url.Parse`. -/
def WriterConfig.ParsedTraceEndpointURL (parse : String → Except GoError URL)
    (wc : WriterConfig MetricFilter PropertyFilterConfig) : Except String (Option URL) :=
  if wc.TraceEndpointURL ≠ "" then
    match parse wc.TraceEndpointURL with
    | .error _ => .error "traceEndpointUrl was supposed to be validated already"
    | .ok traceEndpointURL => .ok (some traceEndpointURL)
  else
    .ok none

/-- Hash calculates a hash value for this config struct.  `hashstructure` is
`hashstructure.Hash(wc, nil)`, which follows the pointer and hashes the struct
value; the result is a `uint64`, hence the reduction modulo `2 ^ 64`.  When
hashing fails the error is logged and `0` is returned. -/
def WriterConfig.Hash
    (hashstructure : WriterConfig MetricFilter PropertyFilterConfig → Except GoError Nat)
    (wc : WriterConfig MetricFilter PropertyFilterConfig) : Nat :=
  match hashstructure wc with
  | .error _ => 0
  | .ok hash => hash % 2 ^ 64

/-- The two configurations agree on every field other than
`DatapointMaxRequests` and `MaxRequests`. -/
def WriterConfig.agreeOutsideRequestLimits
    (a b : WriterConfig MetricFilter PropertyFilterConfig) : Prop :=
  a.DatapointMaxBatchSize = b.DatapointMaxBatchSize ∧
  a.MaxDatapointsBuffered = b.MaxDatapointsBuffered ∧
  a.TraceSpanMaxBatchSize = b.TraceSpanMaxBatchSize ∧
  a.TraceExportFormat = b.TraceExportFormat ∧
  a.EventSendIntervalSeconds = b.EventSendIntervalSeconds ∧
  a.PropertiesMaxRequests = b.PropertiesMaxRequests ∧
  a.PropertiesMaxBuffered = b.PropertiesMaxBuffered ∧
  a.PropertiesSendDelaySeconds = b.PropertiesSendDelaySeconds ∧
  a.PropertiesHistorySize = b.PropertiesHistorySize ∧
  a.LogDatapoints = b.LogDatapoints ∧
  a.LogEvents = b.LogEvents ∧
  a.LogTraceSpans = b.LogTraceSpans ∧
  a.LogDimensionUpdates = b.LogDimensionUpdates ∧
  a.LogDroppedDatapoints = b.LogDroppedDatapoints ∧
  a.SendTraceHostCorrelationMetrics = b.SendTraceHostCorrelationMetrics ∧
  a.StaleServiceTimeout = b.StaleServiceTimeout ∧
  a.TraceHostCorrelationMetricsInterval = b.TraceHostCorrelationMetricsInterval ∧
  a.MaxTraceSpansInFlight = b.MaxTraceSpansInFlight ∧
  a.HostIDDims = b.HostIDDims ∧
  a.IngestURL = b.IngestURL ∧
  a.APIURL = b.APIURL ∧
  a.TraceEndpointURL = b.TraceEndpointURL ∧
  a.SignalFxAccessToken = b.SignalFxAccessToken ∧
  a.GlobalDimensions = b.GlobalDimensions ∧
  a.MetricsToInclude = b.MetricsToInclude ∧
  a.MetricsToExclude = b.MetricsToExclude ∧
  a.PropertiesToExclude = b.PropertiesToExclude

/-! ## The datapoint buffer -/

/-- Modelled from the spec: the bounded ring buffer that holds unsent datapoints
(capacity `maxDatapointsBuffered`); its implementation is not among the source
files.  Spec, data model: fixed capacity N, insertion order preserved,
overwrite policy evict-oldest-on-full.  `items` lists the held records oldest
first, `dropped` is the counter of evicted records. -/
structure BoundedBuffer (α : Type) where
  capacity : Nat
  items : List α
  dropped : Nat
deriving DecidableEq

/-- Modelled from the spec: the empty buffer of capacity `N`. -/
def BoundedBuffer.New {α : Type} (N : Nat) : BoundedBuffer α :=
  { capacity := N, items := [], dropped := 0 }

/-- Modelled from the spec: `Push(record)` of the bounded ring buffer, which is
not among the source files.  Below capacity the record is appended.  At
capacity the oldest record is evicted, the dropped counter is incremented and
the record takes the freed place; a buffer of capacity zero has no place to
free, so the record itself is the one that is lost. -/
def BoundedBuffer.Push {α : Type} (b : BoundedBuffer α) (record : α) : BoundedBuffer α :=
  if b.items.length < b.capacity then
    { b with items := b.items ++ [record] }
  else if b.capacity = 0 then
    { b with dropped := b.dropped + 1 }
  else
    { b with items := b.items.tail ++ [record], dropped := b.dropped + 1 }

/-- Modelled from the spec: `Len()` of the bounded ring buffer. -/
def BoundedBuffer.Len {α : Type} (b : BoundedBuffer α) : Nat :=
  b.items.length

/-- The buffer after pushing the records `xs`, in this order, into an empty
buffer of capacity `N`. -/
def BoundedBuffer.pushAll {α : Type} (N : Nat) (xs : List α) : BoundedBuffer α :=
  xs.foldl BoundedBuffer.Push (BoundedBuffer.New N)

/-! ## Reconciliation of the request limits -/

/-- C1: `initialize` implements first-non-zero-wins over
(DatapointMaxRequests, MaxRequests): afterwards both fields equal the original
DatapointMaxRequests when that is non-zero and the original MaxRequests
otherwise; the default configuration (0 and 10) ends with both fields 10. -/
theorem init_first_nonzero_wins :
    (∀ wc : WriterConfig MetricFilter PropertyFilterConfig,
      ( WriterConfig.initialize wc).MaxRequests
          = (if wc.DatapointMaxRequests ≠ 0 then wc.DatapointMaxRequests else wc.MaxRequests) ∧
      ( WriterConfig.initialize wc).DatapointMaxRequests
          = (if wc.DatapointMaxRequests ≠ 0 then wc.DatapointMaxRequests else wc.MaxRequests)) ∧
    ( WriterConfig.initialize
        (defaultWriterConfig : WriterConfig MetricFilter PropertyFilterConfig)).MaxRequests = 10 ∧
    ( WriterConfig.initialize
        (defaultWriterConfig : WriterConfig MetricFilter PropertyFilterConfig)).DatapointMaxRequests
      = 10 := by
  refine ⟨fun wc => ?_, rfl, rfl⟩
  unfold WriterConfig.initialize
  split <;> simp_all

/-- C2, as stated, fails: with DatapointMaxRequests = 5 and MaxRequests = 10,
both non-zero, `initialize` does not keep the configured MaxRequests: it
becomes 5. -/
theorem init_newer_does_not_override :
    ({ (defaultWriterConfig : WriterConfig Unit Unit) with
        DatapointMaxRequests := 5, MaxRequests := 10 }).DatapointMaxRequests ≠ 0 ∧
    ({ (defaultWriterConfig : WriterConfig Unit Unit) with
        DatapointMaxRequests := 5, MaxRequests := 10 }).MaxRequests ≠ 0 ∧
    ( WriterConfig.initialize { (defaultWriterConfig : WriterConfig Unit Unit) with
        DatapointMaxRequests := 5, MaxRequests := 10 }).MaxRequests = 5 ∧
    ( WriterConfig.initialize { (defaultWriterConfig : WriterConfig Unit Unit) with
        DatapointMaxRequests := 5, MaxRequests := 10 }).MaxRequests
      ≠ ({ (defaultWriterConfig : WriterConfig Unit Unit) with
        DatapointMaxRequests := 5, MaxRequests := 10 }).MaxRequests := by
  decide

/-- C2, amended: when DatapointMaxRequests and MaxRequests are both non-zero the
legacy option overrides the newer one: after `initialize` MaxRequests equals
the configured DatapointMaxRequests, and it equals its own configured value
only if the two were configured equal. -/
theorem init_legacy_overrides (wc : WriterConfig MetricFilter PropertyFilterConfig)
    (hd : wc.DatapointMaxRequests ≠ 0) (_hm : wc.MaxRequests ≠ 0) :
    ( WriterConfig.initialize wc).MaxRequests = wc.DatapointMaxRequests ∧
    (( WriterConfig.initialize wc).MaxRequests = wc.MaxRequests ↔
      wc.DatapointMaxRequests = wc.MaxRequests) := by
  have h : ( WriterConfig.initialize wc).MaxRequests = wc.DatapointMaxRequests := by
    unfold WriterConfig.initialize
    rw [if_pos hd]
  exact ⟨h, by rw [h]⟩

/-- Witness of `init_legacy_overrides`: DatapointMaxRequests = 5 and
MaxRequests = 10. -/
theorem init_legacy_overrides_witness :
    ({ (defaultWriterConfig : WriterConfig Unit Unit) with
        DatapointMaxRequests := 5, MaxRequests := 10 }).DatapointMaxRequests ≠ 0 ∧
    ({ (defaultWriterConfig : WriterConfig Unit Unit) with
        DatapointMaxRequests := 5, MaxRequests := 10 }).MaxRequests ≠ 0 ∧
    ( WriterConfig.initialize { (defaultWriterConfig : WriterConfig Unit Unit) with
        DatapointMaxRequests := 5, MaxRequests := 10 }).MaxRequests = 5 :=
  ⟨by decide, by decide,
    (init_legacy_overrides { (defaultWriterConfig : WriterConfig Unit Unit) with
        DatapointMaxRequests := 5, MaxRequests := 10 } (by decide) (by decide)).1⟩

/-- C3: `initialize` leaves PropertiesMaxRequests unchanged, the resulting
MaxRequests does not depend on PropertiesMaxRequests, and no field other than
MaxRequests and DatapointMaxRequests changes: putting the two original values
back into the initialised struct gives the original struct, so every other
field (listed for the budgets, batch sizes, buffers, delays, toggles, URLs,
token, dimensions and filters) is as before. -/
theorem init_frame (wc : WriterConfig MetricFilter PropertyFilterConfig) :
    ( WriterConfig.initialize wc).PropertiesMaxRequests = wc.PropertiesMaxRequests ∧
    (∀ p : Nat, ( WriterConfig.initialize { wc with PropertiesMaxRequests := p }).MaxRequests
        = ( WriterConfig.initialize wc).MaxRequests) ∧
    { WriterConfig.initialize wc with
        DatapointMaxRequests := wc.DatapointMaxRequests, MaxRequests := wc.MaxRequests } = wc ∧
    WriterConfig.agreeOutsideRequestLimits ( WriterConfig.initialize wc) wc := by
  unfold WriterConfig.initialize WriterConfig.agreeOutsideRequestLimits
  split <;> simp

/-- C9: after `initialize` the deprecated and the current request limit agree,
for every configuration, zero and negative values included. -/
theorem init_limits_agree (wc : WriterConfig MetricFilter PropertyFilterConfig) :
    ( WriterConfig.initialize wc).MaxRequests
      = ( WriterConfig.initialize wc).DatapointMaxRequests := by
  unfold WriterConfig.initialize
  split <;> rfl

/-- C10: `initialize` is idempotent. -/
theorem init_idempotent (wc : WriterConfig MetricFilter PropertyFilterConfig) :
    WriterConfig.initialize ( WriterConfig.initialize wc) = WriterConfig.initialize wc := by
  unfold WriterConfig.initialize
  by_cases h : wc.DatapointMaxRequests = 0
  · by_cases h2 : wc.MaxRequests = 0 <;> simp [h, h2]
  · simp [h]

/-! ## Endpoint URLs -/

/-- C4: ParsedIngestURL (ParsedAPIURL) panics exactly when `url.Parse` of
IngestURL (APIURL) returns an error, otherwise it returns exactly the parsed
URL, and it never returns nil. -/
theorem parsed_url_fatal_iff_parse_error (parse : String → Except GoError URL)
    (wc : WriterConfig MetricFilter PropertyFilterConfig) :
    (((∃ msg, WriterConfig.ParsedIngestURL parse wc = .error msg) ↔
        ∃ err, parse wc.IngestURL = .error err) ∧
      (∀ u, parse wc.IngestURL = .ok u → WriterConfig.ParsedIngestURL parse wc = .ok (some u)) ∧
      WriterConfig.ParsedIngestURL parse wc ≠ .ok none) ∧
    (((∃ msg, WriterConfig.ParsedAPIURL parse wc = .error msg) ↔
        ∃ err, parse wc.APIURL = .error err) ∧
      (∀ u, parse wc.APIURL = .ok u → WriterConfig.ParsedAPIURL parse wc = .ok (some u)) ∧
      WriterConfig.ParsedAPIURL parse wc ≠ .ok none) := by
  unfold WriterConfig.ParsedIngestURL WriterConfig.ParsedAPIURL
  constructor
  · cases parse wc.IngestURL <;> simp
  · cases parse wc.APIURL <;> simp

/-- C8: ParsedTraceEndpointURL returns nil exactly when TraceEndpointURL is
empty; for the empty string nil is returned whatever the parser would do, for
a non-empty one the parsed URL is returned when parsing succeeds and the call
panics when parsing fails. -/
theorem parsed_trace_url_nil_iff_empty (parse : String → Except GoError URL)
    (wc : WriterConfig MetricFilter PropertyFilterConfig) :
    (WriterConfig.ParsedTraceEndpointURL parse wc = .ok none ↔ wc.TraceEndpointURL = "") ∧
    (wc.TraceEndpointURL ≠ "" →
      (∀ u, parse wc.TraceEndpointURL = .ok u →
        WriterConfig.ParsedTraceEndpointURL parse wc = .ok (some u)) ∧
      (∀ err, parse wc.TraceEndpointURL = .error err →
        ∃ msg, WriterConfig.ParsedTraceEndpointURL parse wc = .error msg)) := by
  unfold WriterConfig.ParsedTraceEndpointURL
  by_cases h : wc.TraceEndpointURL = ""
  · simp [h]
  · cases hp : parse wc.TraceEndpointURL <;> simp [h, hp]

/-! ## The configuration hash -/

/-- The value of `Hash` is a `uint64`. -/
theorem Hash_lt (hs : WriterConfig MetricFilter PropertyFilterConfig → Except GoError Nat)
    (wc : WriterConfig MetricFilter PropertyFilterConfig) :
    WriterConfig.Hash hs wc < 2 ^ 64 := by
  unfold WriterConfig.Hash
  split
  · exact Nat.two_pow_pos 64
  · exact Nat.mod_lt _ (Nat.two_pow_pos 64)

/-- Whatever `hashstructure.Hash` computes, two configurations that differ in
IngestURL have the same `Hash`: there are more configurations than `uint64`
values. -/
theorem Hash_collision
    (hs : WriterConfig MetricFilter PropertyFilterConfig → Except GoError Nat) :
    ∃ a b : WriterConfig MetricFilter PropertyFilterConfig,
      a.IngestURL ≠ b.IngestURL ∧ WriterConfig.Hash hs a = WriterConfig.Hash hs b := by
  let cfg : Nat → WriterConfig MetricFilter PropertyFilterConfig := fun n =>
    { (defaultWriterConfig : WriterConfig MetricFilter PropertyFilterConfig) with
      IngestURL := String.mk (List.replicate n 'a') }
  let f : Nat → Fin (2 ^ 64) := fun n => ⟨WriterConfig.Hash hs (cfg n), Hash_lt hs (cfg n)⟩
  have hf : ¬ Function.Injective f := not_injective_infinite_finite f
  simp only [Function.Injective, not_forall] at hf
  obtain ⟨n, m, hfnm, hnm⟩ := hf
  refine ⟨cfg n, cfg m, ?_, ?_⟩
  · intro h
    apply hnm
    have h2 : (String.mk (List.replicate n 'a')).data = (String.mk (List.replicate m 'a')).data :=
      congrArg String.data h
    have h3 := congrArg List.length h2
    simpa using h3
  · exact congrArg Fin.val hfnm

/-- C5: two configurations that agree on every field other than
DatapointMaxRequests and MaxRequests and have the same reconciled request
limit (DatapointMaxRequests if non-zero, else MaxRequests) are equal after
`initialize`, and so `Hash` returns the same value for both. -/
theorem Hash_eq_of_same_reconciled_limit
    (c1 c2 : WriterConfig MetricFilter PropertyFilterConfig)
    (hagree : WriterConfig.agreeOutsideRequestLimits c1 c2)
    (hlim : (if c1.DatapointMaxRequests ≠ 0 then c1.DatapointMaxRequests else c1.MaxRequests)
      = (if c2.DatapointMaxRequests ≠ 0 then c2.DatapointMaxRequests else c2.MaxRequests)) :
    WriterConfig.initialize c1 = WriterConfig.initialize c2 ∧
    ∀ hs : WriterConfig MetricFilter PropertyFilterConfig → Except GoError Nat,
      WriterConfig.Hash hs ( WriterConfig.initialize c1)
        = WriterConfig.Hash hs ( WriterConfig.initialize c2) := by
  have h : WriterConfig.initialize c1 = WriterConfig.initialize c2 := by
    cases c1
    cases c2
    simp only [WriterConfig.agreeOutsideRequestLimits] at hagree
    simp only [ WriterConfig.initialize]
    split <;> split <;> simp_all
  exact ⟨h, fun hs => by rw [h]⟩

/-- Witness of `Hash_eq_of_same_reconciled_limit`: the limits (5, 10) and
(0, 5) over the default configuration. -/
theorem Hash_eq_of_same_reconciled_limit_witness :
    WriterConfig.agreeOutsideRequestLimits
      { (defaultWriterConfig : WriterConfig Unit Unit) with
        DatapointMaxRequests := 5, MaxRequests := 10 }
      { (defaultWriterConfig : WriterConfig Unit Unit) with
        DatapointMaxRequests := 0, MaxRequests := 5 } ∧
    (if (5 : Int) ≠ 0 then (5 : Int) else 10) = (if (0 : Int) ≠ 0 then (0 : Int) else 5) ∧
    WriterConfig.initialize { (defaultWriterConfig : WriterConfig Unit Unit) with
        DatapointMaxRequests := 5, MaxRequests := 10 }
      = WriterConfig.initialize { (defaultWriterConfig : WriterConfig Unit Unit) with
        DatapointMaxRequests := 0, MaxRequests := 5 } ∧
    ∀ hs : WriterConfig Unit Unit → Except String Nat,
      WriterConfig.Hash hs ( WriterConfig.initialize
          { (defaultWriterConfig : WriterConfig Unit Unit) with
            DatapointMaxRequests := 5, MaxRequests := 10 })
        = WriterConfig.Hash hs ( WriterConfig.initialize
          { (defaultWriterConfig : WriterConfig Unit Unit) with
            DatapointMaxRequests := 0, MaxRequests := 5 }) :=
  ⟨by simp [WriterConfig.agreeOutsideRequestLimits, defaultWriterConfig], by decide,
    Hash_eq_of_same_reconciled_limit _ _
      (by simp [WriterConfig.agreeOutsideRequestLimits, defaultWriterConfig]) (by decide)⟩

/-- C6, as stated, fails: no `uint64` hash of the struct separates all
configurations.  For no hash function at all does `Hash` return different
results for every two configurations that differ in a field. -/
theorem Hash_not_unique :
    ¬ ∃ hs : WriterConfig Unit Unit → Except String Nat,
      ∀ a b : WriterConfig Unit Unit, a ≠ b → WriterConfig.Hash hs a ≠ WriterConfig.Hash hs b := by
  rintro ⟨hs, h⟩
  obtain ⟨a, b, hab, heq⟩ := Hash_collision hs
  exact h a b (fun e => hab (by rw [e])) heq

/-- C6, amended: `Hash` is a function of the field values with results below
`2 ^ 64`: it is the value of `hashstructure.Hash` when that succeeds and 0 when
it fails, so two configurations with different hashes differ in a field; the
converse fails, some two configurations that differ in a field share their
hash. -/
theorem Hash_sound_not_unique
    (hs : WriterConfig MetricFilter PropertyFilterConfig → Except GoError Nat) :
    (∀ wc h, hs wc = .ok h → WriterConfig.Hash hs wc = h % 2 ^ 64) ∧
    (∀ wc err, hs wc = .error err → WriterConfig.Hash hs wc = 0) ∧
    (∀ a b, WriterConfig.Hash hs a ≠ WriterConfig.Hash hs b → a ≠ b) ∧
    (∀ wc, WriterConfig.Hash hs wc < 2 ^ 64) ∧
    (∃ a b : WriterConfig MetricFilter PropertyFilterConfig,
      a ≠ b ∧ WriterConfig.Hash hs a = WriterConfig.Hash hs b) := by
  refine ⟨fun wc h e => ?_, fun wc err e => ?_, fun a b hne e => hne (by rw [e]),
    Hash_lt hs, ?_⟩
  · simp [WriterConfig.Hash, e]
  · simp [WriterConfig.Hash, e]
  · obtain ⟨a, b, hab, heq⟩ := Hash_collision hs
    exact ⟨a, b, fun e => hab (by rw [e]), heq⟩

/-! ## The datapoint buffer -/

/-- Pushing into the buffer never changes its capacity. -/
theorem Push_capacity {α : Type} (b : BoundedBuffer α) (x : α) :
    (b.Push x).capacity = b.capacity := by
  unfold BoundedBuffer.Push
  split
  · rfl
  · split <;> rfl

/-- One more push is one more step of the fold. -/
theorem pushAll_snoc {α : Type} (N : Nat) (xs : List α) (x : α) :
    BoundedBuffer.pushAll N (xs ++ [x]) = (BoundedBuffer.pushAll N xs).Push x := by
  simp [BoundedBuffer.pushAll, List.foldl_append]

/-- After pushing `xs` the buffer has its capacity and holds the last `N`
records of `xs`, oldest first. -/
theorem pushAll_items {α : Type} (N : Nat) (xs : List α) :
    (BoundedBuffer.pushAll N xs).capacity = N ∧
    (BoundedBuffer.pushAll N xs).items = xs.drop (xs.length - N) := by
  induction xs using List.reverseRecOn with
  | nil => simp [BoundedBuffer.pushAll, BoundedBuffer.New]
  | append_singleton xs x ih =>
    obtain ⟨hc, hi⟩ := ih
    rw [pushAll_snoc]
    refine ⟨by rw [Push_capacity, hc], ?_⟩
    unfold BoundedBuffer.Push
    rw [hc, hi]
    simp only [List.length_drop, List.length_append, List.length_singleton]
    by_cases h1 : xs.length - (xs.length - N) < N
    · rw [if_pos h1]
      have h2 : xs.length < N := by omega
      have h3 : xs.length - N = 0 := by omega
      have h4 : xs.length + 1 - N = 0 := by omega
      simp [h3, h4]
    · rw [if_neg h1]
      have h2 : N ≤ xs.length := by omega
      by_cases h0 : N = 0
      · rw [if_pos h0]
        subst h0
        simp
      · rw [if_neg h0]
        have h5 : xs.length + 1 - N = (xs.length - N) + 1 := by omega
        have h6 : xs.length - N + 1 ≤ xs.length := by omega
        simp only [List.tail_drop]
        rw [h5, List.drop_append_of_le_length h6]

/-- C7: for every sequence of pushes into the datapoint buffer of capacity `N`
the length never exceeds `N` and the buffer holds the `N` most recently pushed
records, or all of them if fewer than `N` were pushed, in arrival order; this
holds after the whole sequence `xs` and after each of its prefixes. -/
theorem buffer_keeps_most_recent {α : Type} (N : Nat) (xs : List α) :
    (BoundedBuffer.pushAll N xs).Len ≤ N ∧
    (BoundedBuffer.pushAll N xs).items = xs.drop (xs.length - N) ∧
    (xs.length ≤ N → (BoundedBuffer.pushAll N xs).items = xs) ∧
    (BoundedBuffer.pushAll N xs).items <:+ xs ∧
    (BoundedBuffer.pushAll N xs).Len = min xs.length N ∧
    ∀ k, (BoundedBuffer.pushAll N (xs.take k)).Len ≤ N ∧
      (BoundedBuffer.pushAll N (xs.take k)).items
        = (xs.take k).drop ((xs.take k).length - N) := by
  have key : ∀ ys : List α, (BoundedBuffer.pushAll N ys).Len ≤ N := by
    intro ys
    unfold BoundedBuffer.Len
    rw [(pushAll_items N ys).2, List.length_drop]
    omega
  refine ⟨key xs, (pushAll_items N xs).2, ?_, ?_, ?_, ?_⟩
  · intro h
    rw [(pushAll_items N xs).2, Nat.sub_eq_zero_of_le h, List.drop_zero]
  · rw [(pushAll_items N xs).2]
    exact List.drop_suffix _ _
  · unfold BoundedBuffer.Len
    rw [(pushAll_items N xs).2, List.length_drop]
    omega
  · intro k
    exact ⟨key _, (pushAll_items N _).2⟩

end config
